import Mathlib

/-!
Shallow embedding of the bilateral barter-negotiation engine of the
FoodCheq backend (files `src/routes/vendor-barter.routes.ts` and
`src/routes/admin-barter.routes.ts`, persisted schema in
`prisma/migrations/20251227181847_add_new_features/migration.sql`).

Each HTTP route handler is embedded as a pure function on an `Offer`
record (plus the read-only product/vendor stores it consults); the
`Except` result models the all-or-nothing behaviour of the handlers:
an `.error` result corresponds to an early `4xx`/`5xx` return or a
rolled-back transaction, in which case no row was mutated, while an
`.ok` result carries exactly the rows the handler committed.
-/

namespace Barter

/-- The `BarterStatus` enum of the Prisma schema. -/
inductive Status
  | DRAFT
  | SENT
  | COUNTERED
  | ACCEPTED
  | REJECTED
  | CANCELLED
  | IN_PROGRESS
  | COMPLETED
  | DISPUTED
  deriving DecidableEq, Repr

/-- The `CashGapDirection` enum of the Prisma schema. -/
inductive Direction
  | INITIATOR_PAYS
  | RECIPIENT_PAYS
  deriving DecidableEq, Repr

/-- The `VendorStatus` enum of the Prisma schema. -/
inductive VendorStatus
  | PENDING
  | APPROVED
  | SUSPENDED
  deriving DecidableEq, Repr

/-- The columns of the `Vendor` row that the barter routes read. -/
structure Vendor where
  id : String
  status : VendorStatus
  isActive : Bool
  deriving DecidableEq, Repr

/-- The columns of the `Product` row that the barter routes read
(`select: { id, vendorId, priceUsdCents, isAvailable, isDeleted }`). -/
structure Product where
  id : String
  vendorId : String
  priceUsdCents : Nat
  isAvailable : Bool
  isDeleted : Bool
  deriving DecidableEq, Repr

/-- A `BarterItem` row: quantity, the frozen `valueCents` snapshot and
the offered/requested polarity. -/
structure BarterItem where
  productId : String
  quantity : Nat
  valueCents : Nat
  isOffered : Bool
  deriving DecidableEq, Repr

/-- A `BarterOffer` row together with its `items` relation. -/
structure Offer where
  id : String
  initiatorVendorId : String
  recipientVendorId : String
  status : Status
  cashGapCents : Nat
  cashGapDirection : Option Direction
  message : Option String
  counterOfMessage : Option String
  parentOfferId : Option String
  fulfilledByInitiator : Bool
  fulfilledByRecipient : Bool
  disputeReason : Option String
  disputeResolvedBy : Option String
  disputeResolution : Option String
  items : List BarterItem
  deriving DecidableEq, Repr

/-- How a handler run ends when it does not commit: a `403` authorization
failure, a `400` structured validation error, or a thrown exception that
the catch-all turns into a `500` (`internalError`). -/
inductive ErrKind
  | forbidden
  | badRequest
  | internalError
  deriving DecidableEq, Repr

/-- One line of a request body's `items` array (`barterItemSchema`). -/
structure ItemInput where
  productId : String
  quantity : Nat
  isOffered : Bool
  deriving DecidableEq, Repr

/-- Body of `POST /offers` (`createOfferSchema`). -/
structure CreateInput where
  recipientVendorId : String
  items : List ItemInput
  cashGapCents : Nat
  cashGapDirection : Option Direction
  message : Option String
  deriving DecidableEq, Repr

/-- Body of `POST /offers/:id/counter` (`counterOfferSchema`). -/
structure CounterInput where
  items : List ItemInput
  cashGapCents : Nat
  cashGapDirection : Option Direction
  message : Option String
  deriving DecidableEq, Repr

/-- Body of `PATCH /offers/:id` (`updateOfferSchema`); `none` means the
field was absent from the body, and for the nullable
`cashGapDirection` patch `some none` means an explicit `null`. -/
structure UpdateInput where
  items : Option (List ItemInput)
  cashGapCents : Option Nat
  cashGapDirection : Option (Option Direction)
  message : Option String
  deriving DecidableEq, Repr

/-- `prisma.vendor.findUnique({ where: { id } })`. -/
def findVendor (vendors : List Vendor) (vid : String) : Option Vendor :=
  vendors.find? (fun v => v.id == vid)

/-- Lookup in the `productMap` built from
`prisma.product.findMany({ where: { id: { in: productIds } } })`. -/
def findProduct (products : List Product) (pid : String) : Option Product :=
  products.find? (fun p => p.id == pid)

/-- The checks of `barterItemSchema`/`z.array(...).min(1)`: a non-empty
items array whose entries have a non-empty `productId` and an integer
`quantity ≥ 1`. -/
def validItems (items : List ItemInput) : Bool :=
  !items.isEmpty && items.all (fun it => 1 ≤ it.quantity && it.productId ≠ "")

/-- The per-item validation loop of `POST /offers` (existence,
availability/soft-deletion, then ownership relative to initiator and
recipient) fused with the `items.create` mapping that freezes each
product's `priceUsdCents` into `valueCents`. -/
def validateItems (initiatorVendorId recipientVendorId : String)
    (products : List Product) : List ItemInput → Except ErrKind (List BarterItem)
  | [] => .ok []
  | it :: rest =>
    match findProduct products it.productId with
    | none => .error .badRequest
    | some p =>
      if p.isDeleted || !p.isAvailable then .error .badRequest
      else if it.isOffered && p.vendorId ≠ initiatorVendorId then .error .badRequest
      else if !it.isOffered && p.vendorId ≠ recipientVendorId then .error .badRequest
      else
        match validateItems initiatorVendorId recipientVendorId products rest with
        | .error e => .error e
        | .ok tail =>
          .ok ({ productId := it.productId, quantity := it.quantity,
                 valueCents := p.priceUsdCents, isOffered := it.isOffered } :: tail)

/-- The price-map item mapping used by `PATCH /offers/:id` and
`POST /offers/:id/counter`: no validation at all, just
`productMap.get(item.productId)!.priceUsdCents`. A missing product makes
the non-null assertion dereference `undefined`, throwing before (update)
or inside (counter) the transaction; either way nothing is persisted and
the catch-all answers `500`, embedded as `.error .internalError`. -/
def resolveItems (products : List Product) :
    List ItemInput → Except ErrKind (List BarterItem)
  | [] => .ok []
  | it :: rest =>
    match findProduct products it.productId with
    | none => .error .internalError
    | some p =>
      match resolveItems products rest with
      | .error e => .error e
      | .ok tail =>
        .ok ({ productId := it.productId, quantity := it.quantity,
               valueCents := p.priceUsdCents, isOffered := it.isOffered } :: tail)

/-- `POST /offers`: parse, self-offer check, recipient eligibility,
item validation, then `barterOffer.create` in `DRAFT` with
`cashGapDirection: cashGapCents > 0 ? cashGapDirection : null`. -/
def createOffer (initiatorVendorId : String) (input : CreateInput)
    (vendors : List Vendor) (products : List Product) (newId : String) :
    Except ErrKind Offer :=
  if !validItems input.items then .error .badRequest
  else if input.recipientVendorId = initiatorVendorId then .error .badRequest
  else
    match findVendor vendors input.recipientVendorId with
    | none => .error .badRequest
    | some recipientVendor =>
      if recipientVendor.status ≠ .APPROVED || !recipientVendor.isActive then
        .error .badRequest
      else
        match validateItems initiatorVendorId input.recipientVendorId products
            input.items with
        | .error e => .error e
        | .ok createdItems =>
          .ok { id := newId
                initiatorVendorId := initiatorVendorId
                recipientVendorId := input.recipientVendorId
                status := .DRAFT
                cashGapCents := input.cashGapCents
                cashGapDirection :=
                  if 0 < input.cashGapCents then input.cashGapDirection else none
                message := input.message
                counterOfMessage := none
                parentOfferId := none
                fulfilledByInitiator := false
                fulfilledByRecipient := false
                disputeReason := none
                disputeResolvedBy := none
                disputeResolution := none
                items := createdItems }

/-- `PATCH /offers/:id`: initiator-only, `DRAFT`-only, optional wholesale
item replacement (price map without validation), then the field patches. -/
def updateOffer (offer : Offer) (vendorId : String) (input : UpdateInput)
    (products : List Product) : Except ErrKind Offer :=
  if offer.initiatorVendorId ≠ vendorId then .error .forbidden
  else if offer.status ≠ .DRAFT then .error .badRequest
  else if !(match input.items with
            | some its => validItems its
            | none => true) then .error .badRequest
  else
    match (match input.items with
           | some its => resolveItems products its
           | none => .ok offer.items) with
    | .error e => .error e
    | .ok newItems =>
      .ok { offer with
            items := newItems
            cashGapCents := input.cashGapCents.getD offer.cashGapCents
            cashGapDirection := input.cashGapDirection.getD offer.cashGapDirection
            message := match input.message with
                       | some m => some m
                       | none => offer.message }

/-- `POST /offers/:id/send`: initiator-only, `DRAFT`-only, non-empty. -/
def sendOffer (offer : Offer) (vendorId : String) : Except ErrKind Offer :=
  if offer.initiatorVendorId ≠ vendorId then .error .forbidden
  else if offer.status ≠ .DRAFT then .error .badRequest
  else if offer.items.isEmpty then .error .badRequest
  else .ok { offer with status := .SENT }

/-- `POST /offers/:id/accept`: recipient-only, from `SENT`/`COUNTERED`. -/
def acceptOffer (offer : Offer) (vendorId : String) : Except ErrKind Offer :=
  if offer.recipientVendorId ≠ vendorId then .error .forbidden
  else if offer.status ≠ .SENT ∧ offer.status ≠ .COUNTERED then .error .badRequest
  else .ok { offer with status := .ACCEPTED }

/-- `POST /offers/:id/reject`: recipient-only, from `SENT`/`COUNTERED`. -/
def rejectOffer (offer : Offer) (vendorId : String) : Except ErrKind Offer :=
  if offer.recipientVendorId ≠ vendorId then .error .forbidden
  else if offer.status ≠ .SENT ∧ offer.status ≠ .COUNTERED then .error .badRequest
  else .ok { offer with status := .REJECTED }

/-- `POST /offers/:id/cancel`: initiator-only, from `DRAFT`/`SENT`. -/
def cancelOffer (offer : Offer) (vendorId : String) : Except ErrKind Offer :=
  if offer.initiatorVendorId ≠ vendorId then .error .forbidden
  else if offer.status ≠ .DRAFT ∧ offer.status ≠ .SENT then .error .badRequest
  else .ok { offer with status := .CANCELLED }

/-- `POST /offers/:id/counter`: recipient-only, from `SENT`/`COUNTERED`;
on success the single transaction marks the original `COUNTERED` and
creates the role-swapped child in `SENT` with
`parentOfferId = offerId`; the pair is (updated original, new offer). -/
def counterOffer (original : Offer) (vendorId : String) (input : CounterInput)
    (products : List Product) (newId : String) :
    Except ErrKind (Offer × Offer) :=
  if original.recipientVendorId ≠ vendorId then .error .forbidden
  else if original.status ≠ .SENT ∧ original.status ≠ .COUNTERED then
    .error .badRequest
  else if !validItems input.items then .error .badRequest
  else
    match resolveItems products input.items with
    | .error e => .error e
    | .ok createdItems =>
      .ok ({ original with status := .COUNTERED },
           { id := newId
             initiatorVendorId := vendorId
             recipientVendorId := original.initiatorVendorId
             status := .SENT
             cashGapCents := input.cashGapCents
             cashGapDirection :=
               if 0 < input.cashGapCents then input.cashGapDirection else none
             message := input.message
             counterOfMessage := some ("Counter-offer to offer " ++ original.id)
             parentOfferId := some original.id
             fulfilledByInitiator := false
             fulfilledByRecipient := false
             disputeReason := none
             disputeResolvedBy := none
             disputeResolution := none
             items := createdItems })

/-- `POST /offers/:id/fulfill`: party-only, from `ACCEPTED`/`IN_PROGRESS`;
rejects a second fulfil by the same party, otherwise sets that party's
flag and moves to `COMPLETED` when the other flag was already set, to
`IN_PROGRESS` on a first flag from `ACCEPTED`, otherwise keeps the
status. As in the source, an actor matching both vendor ids is handled
by the initiator branch. -/
def fulfillOffer (offer : Offer) (vendorId : String) : Except ErrKind Offer :=
  if offer.initiatorVendorId ≠ vendorId ∧ offer.recipientVendorId ≠ vendorId then
    .error .forbidden
  else if offer.status ≠ .ACCEPTED ∧ offer.status ≠ .IN_PROGRESS then
    .error .badRequest
  else if offer.initiatorVendorId = vendorId then
    if offer.fulfilledByInitiator then .error .badRequest
    else
      .ok { offer with
            fulfilledByInitiator := true
            status :=
              if offer.fulfilledByRecipient then .COMPLETED
              else if offer.status = .ACCEPTED then .IN_PROGRESS
              else offer.status }
  else
    if offer.fulfilledByRecipient then .error .badRequest
    else
      .ok { offer with
            fulfilledByRecipient := true
            status :=
              if offer.fulfilledByInitiator then .COMPLETED
              else if offer.status = .ACCEPTED then .IN_PROGRESS
              else offer.status }

/-- `POST /offers/:id/dispute`: non-empty reason, party-only, from
`ACCEPTED`/`IN_PROGRESS`; records `disputeReason`. -/
def disputeOffer (offer : Offer) (vendorId reason : String) :
    Except ErrKind Offer :=
  if reason = "" then .error .badRequest
  else if offer.initiatorVendorId ≠ vendorId ∧ offer.recipientVendorId ≠ vendorId then
    .error .forbidden
  else if offer.status ≠ .ACCEPTED ∧ offer.status ≠ .IN_PROGRESS then
    .error .badRequest
  else .ok { offer with status := .DISPUTED, disputeReason := some reason }

/-- The `newStatus` enum of `resolveDisputeSchema`. -/
inductive ResolveStatus
  | CANCELLED
  | COMPLETED
  deriving DecidableEq, Repr

/-- Injection of `resolveDisputeSchema.newStatus` into `BarterStatus`. -/
def ResolveStatus.toStatus : ResolveStatus → Status
  | .CANCELLED => .CANCELLED
  | .COMPLETED => .COMPLETED

/-- `PATCH /api/admin/barter/:id/resolve`: non-empty resolution,
`DISPUTED`-only; sets the new status and records the arbiter attestation. -/
def adminResolve (offer : Offer) (adminId resolution : String)
    (newStatus : ResolveStatus) : Except ErrKind Offer :=
  if resolution = "" then .error .badRequest
  else if offer.status ≠ .DISPUTED then .error .badRequest
  else
    .ok { offer with
          status := newStatus.toStatus
          disputeResolvedBy := some adminId
          disputeResolution := some resolution }

/-- `PATCH /api/admin/barter/:id/status`: the admin force-status
override; once the offer is found and the body parses, the status is
written with no precondition on the current state. -/
def adminSetStatus (offer : Offer) (newStatus : Status) : Offer :=
  { offer with status := newStatus }

/-- One line of the projected offered/requested bundles produced by
`transformOffer`. -/
structure ProjectedItem where
  productId : String
  quantity : Nat
  valueCents : Nat
  totalCents : Nat
  deriving DecidableEq, Repr

/-- The read-only view produced by `transformOffer` (the fields the
projection computes; pass-through fields are copied verbatim). -/
structure OfferProjection where
  id : String
  status : Status
  isInitiator : Bool
  offeredItems : List ProjectedItem
  requestedItems : List ProjectedItem
  offeredTotalCents : Nat
  requestedTotalCents : Nat
  cashGapCents : Nat
  cashGapDirection : Option Direction
  fulfilledByInitiator : Bool
  fulfilledByRecipient : Bool
  parentOfferId : Option String
  deriving DecidableEq, Repr

/-- The `transformOffer` helper: pure projection of an offer for a given
viewing vendor — initiator flag, offered/requested split, per-bundle
reduce of `valueCents * quantity`. -/
def transformOffer (offer : Offer) (currentVendorId : String) : OfferProjection :=
  let offeredItems := offer.items.filter (fun i => i.isOffered)
  let requestedItems := offer.items.filter (fun i => !i.isOffered)
  let offeredTotal := offeredItems.foldl (fun sum i => sum + i.valueCents * i.quantity) 0
  let requestedTotal := requestedItems.foldl (fun sum i => sum + i.valueCents * i.quantity) 0
  { id := offer.id
    status := offer.status
    isInitiator := offer.initiatorVendorId == currentVendorId
    offeredItems := offeredItems.map (fun i =>
      { productId := i.productId, quantity := i.quantity,
        valueCents := i.valueCents, totalCents := i.valueCents * i.quantity })
    requestedItems := requestedItems.map (fun i =>
      { productId := i.productId, quantity := i.quantity,
        valueCents := i.valueCents, totalCents := i.valueCents * i.quantity })
    offeredTotalCents := offeredTotal
    requestedTotalCents := requestedTotal
    cashGapCents := offer.cashGapCents
    cashGapDirection := offer.cashGapDirection
    fulfilledByInitiator := offer.fulfilledByInitiator
    fulfilledByRecipient := offer.fulfilledByRecipient
    parentOfferId := offer.parentOfferId }

/-- Which party a fulfil actor is resolved to. -/
inductive Party
  | initiator
  | recipient
  deriving DecidableEq, Repr

/-- The vendor id a party authenticates with. -/
def Party.idOn (P : Party) (o : Offer) : String :=
  match P with
  | .initiator => o.initiatorVendorId
  | .recipient => o.recipientVendorId

/-- A party's own fulfilled flag. -/
def Party.ownFlag (P : Party) (o : Offer) : Bool :=
  match P with
  | .initiator => o.fulfilledByInitiator
  | .recipient => o.fulfilledByRecipient

/-- The counterparty's fulfilled flag. -/
def Party.otherFlag (P : Party) (o : Offer) : Bool :=
  match P with
  | .initiator => o.fulfilledByRecipient
  | .recipient => o.fulfilledByInitiator

/-- The offer with a party's fulfilled flag set and a given status. -/
def Party.setFulfilled (P : Party) (o : Offer) (s : Status) : Offer :=
  match P with
  | .initiator => { o with fulfilledByInitiator := true, status := s }
  | .recipient => { o with fulfilledByRecipient := true, status := s }

/-- True when a handler run ended without committing anything. -/
def isError {α : Type} : Except ErrKind α → Bool
  | .error _ => true
  | .ok _ => false

/-- The stored offer after a handler run: the committed row on success,
the untouched row when the handler returned an error. -/
def persistResult (r : Except ErrKind Offer) (o : Offer) : Offer :=
  match r with
  | .ok o' => o'
  | .error _ => o

/-- The party actions of the engine's state-machine table. -/
inductive SpecAction
  | send
  | accept
  | reject
  | counter
  | cancel
  | fulfill
  | dispute
  deriving DecidableEq, Repr

/-- Transcription of the spec's state/transition table (§4.1): the source
states from which each party action is permitted. This definition follows
the specification's words, to be compared with the route guards. -/
def specTableAllows : SpecAction → Status → Bool
  | .send, .DRAFT => true
  | .accept, .SENT => true
  | .accept, .COUNTERED => true
  | .reject, .SENT => true
  | .reject, .COUNTERED => true
  | .counter, .SENT => true
  | .counter, .COUNTERED => true
  | .cancel, .DRAFT => true
  | .cancel, .SENT => true
  | .fulfill, .ACCEPTED => true
  | .fulfill, .IN_PROGRESS => true
  | .dispute, .ACCEPTED => true
  | .dispute, .IN_PROGRESS => true
  | _, _ => false

/-- Specification-side bundle total: the sum over a bundle of
`valueCents * quantity`. -/
def bundleTotal (items : List BarterItem) : Nat :=
  (items.map (fun i => i.valueCents * i.quantity)).sum

/-- A template offer between two distinct vendors, used to instantiate
concrete scenarios. -/
def sampleOffer : Offer :=
  { id := "offer-1"
    initiatorVendorId := "vendor-A"
    recipientVendorId := "vendor-B"
    status := .DRAFT
    cashGapCents := 0
    cashGapDirection := none
    message := none
    counterOfMessage := none
    parentOfferId := none
    fulfilledByInitiator := false
    fulfilledByRecipient := false
    disputeReason := none
    disputeResolvedBy := none
    disputeResolution := none
    items := [] }

/-- C1: for an offer in ACCEPTED or IN_PROGRESS and a fulfil action by a
party P, the action is rejected when P's own flag is already true;
otherwise P's flag is set and the new status is COMPLETED when the other
party's flag was already true, IN_PROGRESS when the prior status was
ACCEPTED with the other flag false, and unchanged otherwise. -/
theorem fulfill_convergence_semantics (o : Offer) (P : Party)
    (hstate : o.status = .ACCEPTED ∨ o.status = .IN_PROGRESS)
    (hne : o.initiatorVendorId ≠ o.recipientVendorId) :
    (P.ownFlag o = true → fulfillOffer o (P.idOn o) = .error .badRequest) ∧
    (P.ownFlag o = false →
      fulfillOffer o (P.idOn o) =
        .ok (P.setFulfilled o
          (if P.otherFlag o then Status.COMPLETED
           else if o.status = Status.ACCEPTED then Status.IN_PROGRESS
           else o.status))) := by
  cases P with
  | initiator =>
    simp only [Party.idOn, Party.ownFlag, Party.otherFlag, Party.setFulfilled]
    refine ⟨fun hflag => ?_, fun hflag => ?_⟩ <;>
      rcases hstate with h | h <;>
        simp [fulfillOffer, h, hflag]
  | recipient =>
    simp only [Party.idOn, Party.ownFlag, Party.otherFlag, Party.setFulfilled]
    refine ⟨fun hflag => ?_, fun hflag => ?_⟩ <;>
      rcases hstate with h | h <;>
        simp [fulfillOffer, h, hflag, hne]

/-- Witness for C1: the initiator's first fulfil on a concrete ACCEPTED
offer moves it to IN_PROGRESS with the initiator flag set. -/
theorem fulfill_convergence_semantics_witness :
    fulfillOffer { sampleOffer with status := .ACCEPTED } "vendor-A" =
      .ok { sampleOffer with status := .IN_PROGRESS, fulfilledByInitiator := true } := by
  have h :=
    (fulfill_convergence_semantics { sampleOffer with status := .ACCEPTED }
      Party.initiator (Or.inl rfl) (by decide)).2 (by decide)
  simpa [sampleOffer, Party.idOn, Party.otherFlag, Party.setFulfilled] using h

/-- C8: from ACCEPTED with both flags false, initiator-then-recipient and
recipient-then-initiator fulfil orders both succeed step by step and end
in the same offer: COMPLETED with both flags true. -/
theorem fulfill_completion_commutes (o : Offer)
    (hstate : o.status = .ACCEPTED)
    (hfi : o.fulfilledByInitiator = false)
    (hfr : o.fulfilledByRecipient = false)
    (hne : o.initiatorVendorId ≠ o.recipientVendorId) :
    fulfillOffer o o.initiatorVendorId =
      .ok { o with fulfilledByInitiator := true, status := .IN_PROGRESS } ∧
    fulfillOffer { o with fulfilledByInitiator := true, status := .IN_PROGRESS }
        o.recipientVendorId =
      .ok { o with
            fulfilledByInitiator := true
            fulfilledByRecipient := true
            status := .COMPLETED } ∧
    fulfillOffer o o.recipientVendorId =
      .ok { o with fulfilledByRecipient := true, status := .IN_PROGRESS } ∧
    fulfillOffer { o with fulfilledByRecipient := true, status := .IN_PROGRESS }
        o.initiatorVendorId =
      .ok { o with
            fulfilledByInitiator := true
            fulfilledByRecipient := true
            status := .COMPLETED } := by
  refine ⟨?_, ?_, ?_, ?_⟩ <;> simp [fulfillOffer, hstate, hfi, hfr, hne]

/-- Witness for C8: both fulfil orders on a concrete ACCEPTED offer end
in the same COMPLETED offer with both flags true. -/
theorem fulfill_completion_commutes_witness :
    fulfillOffer { sampleOffer with status := .ACCEPTED } "vendor-A" =
      .ok { sampleOffer with status := .IN_PROGRESS, fulfilledByInitiator := true } ∧
    fulfillOffer { sampleOffer with status := .IN_PROGRESS, fulfilledByInitiator := true }
        "vendor-B" =
      .ok { sampleOffer with
            status := .COMPLETED
            fulfilledByInitiator := true
            fulfilledByRecipient := true } ∧
    fulfillOffer { sampleOffer with status := .ACCEPTED } "vendor-B" =
      .ok { sampleOffer with status := .IN_PROGRESS, fulfilledByRecipient := true } ∧
    fulfillOffer { sampleOffer with status := .IN_PROGRESS, fulfilledByRecipient := true }
        "vendor-A" =
      .ok { sampleOffer with
            status := .COMPLETED
            fulfilledByInitiator := true
            fulfilledByRecipient := true } := by
  have h := fulfill_completion_commutes { sampleOffer with status := .ACCEPTED }
    rfl rfl rfl (by decide)
  exact ⟨h.1.trans rfl, h.2.1.trans rfl, h.2.2.1.trans rfl, h.2.2.2.trans rfl⟩

/-- The item list carried by a successful item-resolution result. -/
def itemsOf : Except ErrKind (List BarterItem) → List BarterItem
  | .ok l => l
  | .error _ => []

/-- When every referenced product is present in the store, the price-map
resolution of `PATCH`/`counter` succeeds. -/
theorem resolveItems_ok_of_found (db : List Product) (items : List ItemInput)
    (h : ∀ it ∈ items, (findProduct db it.productId).isSome) :
    ∃ l, resolveItems db items = .ok l := by
  induction items with
  | nil => exact ⟨[], rfl⟩
  | cons it rest ih =>
    obtain ⟨p, hp⟩ := Option.isSome_iff_exists.mp (h it (List.mem_cons_self it rest))
    obtain ⟨l, hl⟩ := ih (fun x hx => h x (List.mem_cons_of_mem it hx))
    exact ⟨{ productId := it.productId, quantity := it.quantity,
             valueCents := p.priceUsdCents, isOffered := it.isOffered } :: l,
           by simp [resolveItems, hp, hl]⟩

/-- C2: from SENT or COUNTERED, a counter by the recipient (with a
well-formed body whose products resolve) marks the predecessor COUNTERED
and creates the child in SENT with initiator/recipient swapped and
`parentOfferId` pointing at the predecessor; a counter by anyone else,
or from any other state, is rejected (no child created, no change). -/
theorem counter_chain_integrity (o : Offer) (v : String) (inp : CounterInput)
    (db : List Product) (newId : String) :
    ((o.status = .SENT ∨ o.status = .COUNTERED) → v = o.recipientVendorId →
      validItems inp.items = true →
      (∀ it ∈ inp.items, (findProduct db it.productId).isSome) →
      counterOffer o v inp db newId =
        .ok ({ o with status := .COUNTERED },
             { id := newId
               initiatorVendorId := o.recipientVendorId
               recipientVendorId := o.initiatorVendorId
               status := .SENT
               cashGapCents := inp.cashGapCents
               cashGapDirection :=
                 if 0 < inp.cashGapCents then inp.cashGapDirection else none
               message := inp.message
               counterOfMessage := some ("Counter-offer to offer " ++ o.id)
               parentOfferId := some o.id
               fulfilledByInitiator := false
               fulfilledByRecipient := false
               disputeReason := none
               disputeResolvedBy := none
               disputeResolution := none
               items := itemsOf (resolveItems db inp.items) })) ∧
    (v ≠ o.recipientVendorId → isError (counterOffer o v inp db newId) = true) ∧
    (o.status ≠ .SENT → o.status ≠ .COUNTERED →
      isError (counterOffer o v inp db newId) = true) := by
  refine ⟨fun hs hv hvalid hfound => ?_, fun hv => ?_, fun h1 h2 => ?_⟩
  · subst hv
    obtain ⟨l, hl⟩ := resolveItems_ok_of_found db inp.items hfound
    rcases hs with h | h <;> simp [counterOffer, h, hvalid, hl, itemsOf]
  · have hv' : o.recipientVendorId ≠ v := Ne.symm hv
    simp [counterOffer, isError, hv']
  · rcases eq_or_ne o.recipientVendorId v with hv | hv <;>
      simp [counterOffer, isError, h1, h2, hv]

/-- A product owned by the offer initiator `vendor-A`. -/
def productOfA : Product :=
  { id := "prod-A", vendorId := "vendor-A", priceUsdCents := 1000,
    isAvailable := true, isDeleted := false }

/-- A counter body requesting one unit of `prod-A`. -/
def sampleCounterInput : CounterInput :=
  { items := [{ productId := "prod-A", quantity := 1, isOffered := false }],
    cashGapCents := 0, cashGapDirection := none, message := none }

/-- Witness for C2: a concrete counter on a SENT offer by its recipient
produces the COUNTERED predecessor and the swapped child. -/
theorem counter_chain_integrity_witness :
    counterOffer { sampleOffer with status := .SENT } "vendor-B" sampleCounterInput
        [productOfA] "offer-2" =
      .ok ({ sampleOffer with status := .COUNTERED },
           { id := "offer-2"
             initiatorVendorId := "vendor-B"
             recipientVendorId := "vendor-A"
             status := .SENT
             cashGapCents := 0
             cashGapDirection := none
             message := none
             counterOfMessage := some "Counter-offer to offer offer-1"
             parentOfferId := some "offer-1"
             fulfilledByInitiator := false
             fulfilledByRecipient := false
             disputeReason := none
             disputeResolvedBy := none
             disputeResolution := none
             items := [{ productId := "prod-A", quantity := 1, valueCents := 1000,
                         isOffered := false }] }) := by
  have h := (counter_chain_integrity { sampleOffer with status := .SENT } "vendor-B"
    sampleCounterInput [productOfA] "offer-2").1 (Or.inl rfl) (by decide)
    (by decide) (by decide)
  exact h.trans rfl

/-- C7: every party action attempted from a state the spec's transition
table does not permit is rejected and the stored offer is unchanged
(hence retrying the rejected attempt, which runs on the same stored row,
returns the same rejection and never mutates state). -/
theorem state_guard_rejections (o : Offer) (v reason : String) (inp : CounterInput)
    (db : List Product) (newId : String) :
    (specTableAllows .send o.status = false →
      isError (sendOffer o v) = true ∧ persistResult (sendOffer o v) o = o) ∧
    (specTableAllows .accept o.status = false →
      isError (acceptOffer o v) = true ∧ persistResult (acceptOffer o v) o = o) ∧
    (specTableAllows .reject o.status = false →
      isError (rejectOffer o v) = true ∧ persistResult (rejectOffer o v) o = o) ∧
    (specTableAllows .counter o.status = false →
      isError (counterOffer o v inp db newId) = true) ∧
    (specTableAllows .cancel o.status = false →
      isError (cancelOffer o v) = true ∧ persistResult (cancelOffer o v) o = o) ∧
    (specTableAllows .fulfill o.status = false →
      isError (fulfillOffer o v) = true ∧ persistResult (fulfillOffer o v) o = o) ∧
    (specTableAllows .dispute o.status = false →
      isError (disputeOffer o v reason) = true ∧
      persistResult (disputeOffer o v reason) o = o) := by
  refine ⟨fun h => ?_, fun h => ?_, fun h => ?_, fun h => ?_, fun h => ?_,
    fun h => ?_, fun h => ?_⟩
  · have h1 : o.status ≠ .DRAFT := by
      intro e; rw [e] at h; exact absurd h (by decide)
    unfold sendOffer
    split_ifs <;> simp_all [isError, persistResult]
  · have h1 : o.status ≠ .SENT := by
      intro e; rw [e] at h; exact absurd h (by decide)
    have h2 : o.status ≠ .COUNTERED := by
      intro e; rw [e] at h; exact absurd h (by decide)
    unfold acceptOffer
    split_ifs <;> simp_all [isError, persistResult]
  · have h1 : o.status ≠ .SENT := by
      intro e; rw [e] at h; exact absurd h (by decide)
    have h2 : o.status ≠ .COUNTERED := by
      intro e; rw [e] at h; exact absurd h (by decide)
    unfold rejectOffer
    split_ifs <;> simp_all [isError, persistResult]
  · have h1 : o.status ≠ .SENT := by
      intro e; rw [e] at h; exact absurd h (by decide)
    have h2 : o.status ≠ .COUNTERED := by
      intro e; rw [e] at h; exact absurd h (by decide)
    rcases eq_or_ne o.recipientVendorId v with hv | hv <;>
      simp [counterOffer, isError, h1, h2, hv]
  · have h1 : o.status ≠ .DRAFT := by
      intro e; rw [e] at h; exact absurd h (by decide)
    have h2 : o.status ≠ .SENT := by
      intro e; rw [e] at h; exact absurd h (by decide)
    unfold cancelOffer
    split_ifs <;> simp_all [isError, persistResult]
  · have h1 : o.status ≠ .ACCEPTED := by
      intro e; rw [e] at h; exact absurd h (by decide)
    have h2 : o.status ≠ .IN_PROGRESS := by
      intro e; rw [e] at h; exact absurd h (by decide)
    unfold fulfillOffer
    split_ifs <;> simp_all [isError, persistResult]
  · have h1 : o.status ≠ .ACCEPTED := by
      intro e; rw [e] at h; exact absurd h (by decide)
    have h2 : o.status ≠ .IN_PROGRESS := by
      intro e; rw [e] at h; exact absurd h (by decide)
    unfold disputeOffer
    split_ifs <;> simp_all [isError, persistResult]

/-- Witness for C7: on a concrete DISPUTED offer every party action is
rejected and the stored row is untouched. -/
theorem state_guard_rejections_witness :
    isError (sendOffer { sampleOffer with status := .DISPUTED } "vendor-A") = true ∧
    isError (acceptOffer { sampleOffer with status := .DISPUTED } "vendor-B") = true ∧
    isError (rejectOffer { sampleOffer with status := .DISPUTED } "vendor-B") = true ∧
    isError (counterOffer { sampleOffer with status := .DISPUTED } "vendor-B"
      sampleCounterInput [productOfA] "offer-2") = true ∧
    isError (cancelOffer { sampleOffer with status := .DISPUTED } "vendor-A") = true ∧
    isError (fulfillOffer { sampleOffer with status := .DISPUTED } "vendor-A") = true ∧
    isError (disputeOffer { sampleOffer with status := .DISPUTED } "vendor-A" "late")
      = true := by
  have ha := state_guard_rejections { sampleOffer with status := .DISPUTED }
    "vendor-A" "late" sampleCounterInput [productOfA] "offer-2"
  have hb := state_guard_rejections { sampleOffer with status := .DISPUTED }
    "vendor-B" "late" sampleCounterInput [productOfA] "offer-2"
  exact ⟨(ha.1 rfl).1, (hb.2.1 rfl).1, (hb.2.2.1 rfl).1, hb.2.2.2.1 rfl,
         (ha.2.2.2.2.1 rfl).1, (ha.2.2.2.2.2.1 rfl).1, (ha.2.2.2.2.2.2 rfl).1⟩

/-- An update body with no patches. -/
def sampleUpdateInput : UpdateInput :=
  { items := none, cashGapCents := none, cashGapDirection := none, message := none }

/-- Counterexample for C6: the admin force-status endpoint rewrites a
COMPLETED (terminal) offer back to DRAFT, and a COUNTERED offer is still
accepted by its recipient, so terminal offers are not frozen under all
engine operations. -/
theorem terminal_not_frozen_counterexample :
    ({ sampleOffer with status := .COMPLETED } : Offer).status = .COMPLETED ∧
    (adminSetStatus { sampleOffer with status := .COMPLETED } .DRAFT).status ≠
      .COMPLETED ∧
    acceptOffer { sampleOffer with status := .COUNTERED } "vendor-B" =
      .ok { sampleOffer with status := .ACCEPTED } :=
  ⟨rfl, by decide, rfl⟩

/-- C6 (amended): offers in the hard terminal states REJECTED, CANCELLED
or COMPLETED are rejected by every party action and by the admin dispute
resolution (the admin force-status override is the sole exception, and
COUNTERED offers can still be accepted/rejected/countered). -/
theorem hard_terminal_states_frozen (o : Offer)
    (v reason adminId resolution : String) (uin : UpdateInput) (cin : CounterInput)
    (db : List Product) (newId : String) (rs : ResolveStatus)
    (h : o.status = .REJECTED ∨ o.status = .CANCELLED ∨ o.status = .COMPLETED) :
    isError (updateOffer o v uin db) = true ∧
    isError (sendOffer o v) = true ∧
    isError (acceptOffer o v) = true ∧
    isError (rejectOffer o v) = true ∧
    isError (counterOffer o v cin db newId) = true ∧
    isError (cancelOffer o v) = true ∧
    isError (fulfillOffer o v) = true ∧
    isError (disputeOffer o v reason) = true ∧
    isError (adminResolve o adminId resolution rs) = true := by
  rcases h with h | h | h <;>
    refine ⟨?_, ?_, ?_, ?_, ?_, ?_, ?_, ?_, ?_⟩ <;>
    · simp only [updateOffer, sendOffer, acceptOffer, rejectOffer, counterOffer,
        cancelOffer, fulfillOffer, disputeOffer, adminResolve]
      split_ifs <;> simp_all [isError]

/-- Witness for C6: every party action and the admin resolve on a
concrete COMPLETED offer is rejected. -/
theorem hard_terminal_states_frozen_witness :
    isError (updateOffer { sampleOffer with status := .COMPLETED } "vendor-A"
      sampleUpdateInput [productOfA]) = true ∧
    isError (sendOffer { sampleOffer with status := .COMPLETED } "vendor-A") = true ∧
    isError (acceptOffer { sampleOffer with status := .COMPLETED } "vendor-A") = true ∧
    isError (rejectOffer { sampleOffer with status := .COMPLETED } "vendor-A") = true ∧
    isError (counterOffer { sampleOffer with status := .COMPLETED } "vendor-A"
      sampleCounterInput [productOfA] "offer-2") = true ∧
    isError (cancelOffer { sampleOffer with status := .COMPLETED } "vendor-A") = true ∧
    isError (fulfillOffer { sampleOffer with status := .COMPLETED } "vendor-A") = true ∧
    isError (disputeOffer { sampleOffer with status := .COMPLETED } "vendor-A" "late")
      = true ∧
    isError (adminResolve { sampleOffer with status := .COMPLETED } "admin-1" "done"
      .CANCELLED) = true :=
  hard_terminal_states_frozen { sampleOffer with status := .COMPLETED }
    "vendor-A" "late" "admin-1" "done" sampleUpdateInput sampleCounterInput
    [productOfA] "offer-2" .CANCELLED (Or.inr (Or.inr rfl))

/-- The recipient vendor row used by concrete creations. -/
def approvedVendorB : Vendor :=
  { id := "vendor-B", status := .APPROVED, isActive := true }

/-- Counterexample for C5: a create with `cashGapCents = 500` and no
`cashGapDirection` in the body succeeds, and on the stored offer the
claimed equivalence between a non-null direction and a positive gap
evaluates to false (direction is null while the gap is positive). -/
theorem cashgap_iff_counterexample :
    (createOffer "vendor-A"
        { recipientVendorId := "vendor-B"
          items := [{ productId := "prod-A", quantity := 1, isOffered := true }]
          cashGapCents := 500
          cashGapDirection := none
          message := none }
        [approvedVendorB] [productOfA] "offer-1").map
      (fun o => decide (o.cashGapDirection ≠ none ↔ 0 < o.cashGapCents)) =
    .ok false := rfl

/-- C5 (amended): after a successful create or counter, a non-null
`cashGapDirection` implies `cashGapCents > 0` (the converse is not
enforced, and `PATCH /offers/:id` maintains neither direction). -/
theorem cashgap_direction_only_if (init : String) (cin : CreateInput)
    (vdb : List Vendor) (pdb : List Product) (newId : String) (o : Offer)
    (orig : Offer) (v : String) (inp : CounterInput) (pc : Offer × Offer) :
    (createOffer init cin vdb pdb newId = .ok o →
      o.cashGapDirection ≠ none → 0 < o.cashGapCents) ∧
    (counterOffer orig v inp pdb newId = .ok pc →
      pc.2.cashGapDirection ≠ none → 0 < pc.2.cashGapCents) := by
  constructor
  · intro h hdir
    simp only [createOffer] at h
    split at h
    · exact absurd h (by simp)
    split at h
    · exact absurd h (by simp)
    split at h
    · exact absurd h (by simp)
    split at h
    · exact absurd h (by simp)
    split at h
    · exact absurd h (by simp)
    · obtain rfl := Except.ok.inj h
      by_cases hc : 0 < cin.cashGapCents
      · exact hc
      · exact absurd (by simp [hc]) hdir
  · intro h hdir
    simp only [counterOffer] at h
    split at h
    · exact absurd h (by simp)
    split at h
    · exact absurd h (by simp)
    split at h
    · exact absurd h (by simp)
    split at h
    · exact absurd h (by simp)
    · obtain rfl := Except.ok.inj h
      by_cases hc : 0 < inp.cashGapCents
      · exact hc
      · exact absurd (by simp [hc]) hdir

/-- The offer stored by the witness creation for C5. -/
def c5CreatedOffer : Offer :=
  { sampleOffer with
    id := "offer-2"
    cashGapCents := 500
    cashGapDirection := some .INITIATOR_PAYS
    items := [{ productId := "prod-A", quantity := 1, valueCents := 1000,
                isOffered := true }] }

/-- The child offer stored by the witness counter for C5. -/
def c5CounterChild : Offer :=
  { id := "offer-2"
    initiatorVendorId := "vendor-B"
    recipientVendorId := "vendor-A"
    status := .SENT
    cashGapCents := 250
    cashGapDirection := some .RECIPIENT_PAYS
    message := none
    counterOfMessage := some "Counter-offer to offer offer-1"
    parentOfferId := some "offer-1"
    fulfilledByInitiator := false
    fulfilledByRecipient := false
    disputeReason := none
    disputeResolvedBy := none
    disputeResolution := none
    items := [{ productId := "prod-A", quantity := 1, valueCents := 1000,
                isOffered := false }] }

/-- Witness for C5 (amended): concrete create and counter results with a
non-null direction indeed carry a positive gap. -/
theorem cashgap_direction_only_if_witness :
    0 < c5CreatedOffer.cashGapCents ∧ 0 < c5CounterChild.cashGapCents := by
  have h := cashgap_direction_only_if "vendor-A"
    { recipientVendorId := "vendor-B"
      items := [{ productId := "prod-A", quantity := 1, isOffered := true }]
      cashGapCents := 500
      cashGapDirection := some .INITIATOR_PAYS
      message := none }
    [approvedVendorB] [productOfA] "offer-2" c5CreatedOffer
    { sampleOffer with status := .SENT } "vendor-B"
    { items := [{ productId := "prod-A", quantity := 1, isOffered := false }]
      cashGapCents := 250
      cashGapDirection := some .RECIPIENT_PAYS
      message := none }
    ({ sampleOffer with status := .COUNTERED }, c5CounterChild)
  exact ⟨h.1 rfl (by decide), h.2 rfl (by decide)⟩

/-- Folding additions starting from an accumulator equals the
accumulator plus the mapped sum. -/
theorem foldl_add_eq_sum (f : BarterItem → Nat) (l : List BarterItem) (n : Nat) :
    l.foldl (fun s i => s + f i) n = n + (l.map f).sum := by
  induction l generalizing n with
  | nil => simp
  | cons a t ih => simp [List.foldl_cons, ih, Nat.add_assoc]

/-- The example offer of the spec's Scenario A: one offered item worth
1000 and one requested item worth 1500. -/
def projectionExample : Offer :=
  { sampleOffer with
    items := [
      { productId := "prod-A", quantity := 1, valueCents := 1000, isOffered := true },
      { productId := "prod-B", quantity := 1, valueCents := 1500, isOffered := false }] }

/-- C9: the (pure) offer projection reports `isInitiator` exactly when
the viewing vendor equals `initiatorVendorId`, splits the items into the
offered and requested bundles, and reports each bundle total as
`sum(valueCents * quantity)`; on the concrete two-item example the
totals are 1000 and 1500. -/
theorem transformOffer_projection :
    (∀ (o : Offer) (v : String),
      ((transformOffer o v).isInitiator = true ↔ o.initiatorVendorId = v) ∧
      (transformOffer o v).offeredItems =
        (o.items.filter (fun i => i.isOffered)).map (fun i =>
          { productId := i.productId, quantity := i.quantity,
            valueCents := i.valueCents, totalCents := i.valueCents * i.quantity }) ∧
      (transformOffer o v).requestedItems =
        (o.items.filter (fun i => !i.isOffered)).map (fun i =>
          { productId := i.productId, quantity := i.quantity,
            valueCents := i.valueCents, totalCents := i.valueCents * i.quantity }) ∧
      (transformOffer o v).offeredTotalCents =
        bundleTotal (o.items.filter (fun i => i.isOffered)) ∧
      (transformOffer o v).requestedTotalCents =
        bundleTotal (o.items.filter (fun i => !i.isOffered))) ∧
    (transformOffer projectionExample "vendor-B").offeredTotalCents = 1000 ∧
    (transformOffer projectionExample "vendor-B").requestedTotalCents = 1500 ∧
    (transformOffer projectionExample "vendor-B").isInitiator = false ∧
    (transformOffer projectionExample "vendor-A").isInitiator = true := by
  refine ⟨fun o v => ⟨?_, rfl, rfl, ?_, ?_⟩, by decide, by decide, by decide, by decide⟩
  · simp [transformOffer]
  · simpa [transformOffer, bundleTotal] using
      foldl_add_eq_sum (fun i => i.valueCents * i.quantity)
        (o.items.filter (fun i => i.isOffered)) 0
  · simpa [transformOffer, bundleTotal] using
      foldl_add_eq_sum (fun i => i.valueCents * i.quantity)
        (o.items.filter (fun i => !i.isOffered)) 0

/-- C10: resolving a DISPUTED offer changes only `status`,
`disputeResolvedBy` and `disputeResolution`; the parties, items (with
their frozen values and quantities), cash gap fields, fulfilment flags,
`parentOfferId` and `disputeReason` are untouched, as the record-update
result shows. -/
theorem dispute_resolution_frame (o : Offer) (adminId resolution : String)
    (rs : ResolveStatus) (hres : resolution ≠ "") (hst : o.status = .DISPUTED) :
    adminResolve o adminId resolution rs =
      .ok { o with
            status := rs.toStatus
            disputeResolvedBy := some adminId
            disputeResolution := some resolution } := by
  simp [adminResolve, hres, hst]

/-- Witness for C10: a concrete disputed offer resolved to CANCELLED
keeps all frame fields. -/
theorem dispute_resolution_frame_witness :
    adminResolve
        { sampleOffer with
          status := .DISPUTED
          disputeReason := some "goods not received" }
        "admin-1" "refund issued" .CANCELLED =
      .ok { sampleOffer with
            status := .CANCELLED
            disputeReason := some "goods not received"
            disputeResolvedBy := some "admin-1"
            disputeResolution := some "refund issued" } := by
  exact (dispute_resolution_frame
    { sampleOffer with
      status := .DISPUTED
      disputeReason := some "goods not received" }
    "admin-1" "refund issued" .CANCELLED (by decide) rfl).trans rfl

/-- A product owned by a third vendor, party to no offer here. -/
def productOfC : Product :=
  { id := "prod-C", vendorId := "vendor-C", priceUsdCents := 700,
    isAvailable := true, isDeleted := false }

/-- C3 (code bug): neither `PATCH /offers/:id` nor
`POST /offers/:id/counter` performs the ownership check: an item marked
`isOffered = true` whose product belongs to the uninvolved `vendor-C` is
accepted and persisted by both, against the documented validation. -/
theorem ownership_unchecked_on_update_and_counter :
    (updateOffer sampleOffer "vendor-A"
        { items := some [{ productId := "prod-C", quantity := 1, isOffered := true }]
          cashGapCents := none
          cashGapDirection := none
          message := none }
        [productOfC]).map Offer.items =
      .ok [{ productId := "prod-C", quantity := 1, valueCents := 700,
             isOffered := true }] ∧
    (counterOffer { sampleOffer with status := .SENT } "vendor-B"
        { items := [{ productId := "prod-C", quantity := 1, isOffered := true }]
          cashGapCents := 0
          cashGapDirection := none
          message := none }
        [productOfC] "offer-2").map (fun pc => pc.2.items) =
      .ok [{ productId := "prod-C", quantity := 1, valueCents := 700,
             isOffered := true }] :=
  ⟨rfl, rfl⟩

/-- The soft-deleted, unavailable product of `vendor-B`. -/
def deletedProductOfB : Product :=
  { id := "prod-del", vendorId := "vendor-B", priceUsdCents := 900,
    isAvailable := false, isDeleted := true }

/-- C4 (code bug): counter-offer creation never checks product
existence, soft-deletion or availability: a soft-deleted, unavailable
product is silently accepted (its stale price frozen into the item), and
a nonexistent product aborts with an internal error instead of a
structured validation error. -/
theorem counter_skips_product_validation :
    (counterOffer { sampleOffer with status := .SENT } "vendor-B"
        { items := [{ productId := "prod-del", quantity := 2, isOffered := false }]
          cashGapCents := 0
          cashGapDirection := none
          message := none }
        [deletedProductOfB] "offer-2").map (fun pc => pc.2.items) =
      .ok [{ productId := "prod-del", quantity := 2, valueCents := 900,
             isOffered := false }] ∧
    counterOffer { sampleOffer with status := .SENT } "vendor-B"
        { items := [{ productId := "prod-ghost", quantity := 1, isOffered := true }]
          cashGapCents := 0
          cashGapDirection := none
          message := none }
        [] "offer-2" =
      .error .internalError :=
  ⟨rfl, rfl⟩

end Barter
